import Mathlib

/-!
Verification of the signal-pipeline and process-supervision core of the
`reactors` repository (packages `builders` and `fs`).

The pure parts of the Go source are embedded directly as Lean functions.
External collaborators (the Go toolchain, the child process) are passed in
as explicit outcome parameters, following the collaborator contracts of the
design document.  The flux runtime (stages, stacks, mailboxes) and the
run-loop helpers (RunBin, RunCMD, RunGo) live outside this repository; the
definitions that stand for them are marked `Modelled from the spec:` and
follow the design document word by word.
-/

namespace Reactors

/-! ### Go `path` package primitives used by `fs.Vfile` -/

/-- One step of the lexical cleaning loop of Go `path.Clean`: push a path
component onto the (reversed) output stack, resolving `.` and `..`. -/
def cleanPush (rooted : Bool) (out : List String) (c : String) : List String :=
  if c = "" ∨ c = "." then out
  else if c = ".." then
    match out with
    | [] => if rooted then [] else [".."]
    | top :: rest => if top = ".." then c :: out else rest
  else c :: out

/-- Go `path.Clean`: purely lexical simplification of a slash-separated path. -/
def pathClean (p : String) : String :=
  if p = "" then "."
  else
    let rooted := p.startsWith "/"
    let comps := p.splitOn "/"
    let out := (comps.foldl (cleanPush rooted) []).reverse
    let joined := String.intercalate "/" out
    if rooted then "/" ++ joined
    else if joined = "" then "." else joined

/-- Go `path.Join`: drop leading empty elements, join the rest with a slash
and clean the result; all elements empty gives the empty string. -/
def pathJoin (elems : List String) : String :=
  match elems.dropWhile (fun e => e = "") with
  | [] => ""
  | rest => pathClean (String.intercalate "/" rest)

/-! ### `fs.Vfile` (src/fs/vfiles.go lines 10-55) -/

/-- The virtual file of src/fs/vfiles.go: a directory part, a name, the byte
data and a modification timestamp (`time.Time` modelled as a number). -/
structure Vfile where
  path : String
  name : String
  data : List UInt8
  mod : Nat

/-- Accessor `Path` (vfiles.go 18-20): `path.Join(v.path, v.name)`. -/
def Vfile.Path (v : Vfile) : String := pathJoin [v.path, v.name]

/-- Accessor `Name` (vfiles.go 23-25). -/
def Vfile.Name (v : Vfile) : String := v.name

/-- Accessor `Sys` (vfiles.go 28-30): always `nil`. -/
def Vfile.Sys (_v : Vfile) : Option Unit := none

/-- Accessor `Data` (vfiles.go 33-35). -/
def Vfile.Data (v : Vfile) : List UInt8 := v.data

/-- Accessor `Mode` (vfiles.go 38-40): always the zero `os.FileMode`. -/
def Vfile.Mode (_v : Vfile) : Nat := 0

/-- Accessor `Size` (vfiles.go 43-45): `int64(len(v.data))`. -/
def Vfile.Size (v : Vfile) : Int := Int.ofNat v.data.length

/-- Accessor `ModTime` (vfiles.go 48-50). -/
def Vfile.ModTime (v : Vfile) : Nat := v.mod

/-- Accessor `IsDir` (vfiles.go 53-55): always false. -/
def Vfile.IsDir (_v : Vfile) : Bool := false

/-! ### Signals and configurations (src/builders/builders.go) -/

/-- The `BuildConfig` struct (builders.go 60-64). -/
structure BuildConfig where
  Path : String
  Name : String
  Args : List String
deriving DecidableEq, Repr

/-- The `BinaryBuildConfig` struct (builders.go 176-181). -/
structure BinaryBuildConfig where
  Path : String
  Name : String
  BuildArgs : List String
  RunArgs : List String
deriving DecidableEq, Repr

/-- The `RenderFile` struct (builders.go 329-332); the byte slice `Data` is
modelled as a string of bytes.  Values of this struct travel by pointer, so
stage steps below act on a store indexed by pointer ids. -/
structure RenderFile where
  Path : String
  Data : String
deriving DecidableEq, Repr

/-- The `fs.FileWrite` struct (declared in package fs, used at builders.go
301-302, 395-409, 543-553), modelled like `RenderFile`. -/
structure FileWrite where
  Path : String
  Data : String
deriving DecidableEq, Repr

/-- A signal payload: Go passes `interface\x7b\x7d` values between stages and
every muxer type-switches on the payload; the payloads the embedded stages
distinguish become the variants of this sum.  Pointer payloads carry the id
of a store cell.  Error signals (`ReplyError`) carry the message. -/
inductive Data where
  | str (s : String)
  | bool (b : Bool)
  | conf (c : BuildConfig)
  | args (l : List String)
  | render (p : Nat)
  | fileWrite (p : Nat)
  | err (e : String)
deriving DecidableEq, Repr

/-- What a muxer invocation does through its `root` reactor: `Reply`
(builders.go e.g. 27, 95) or `ReplyError` (e.g. 24, 92). -/
inductive Emission where
  | reply (d : Data)
  | error (e : String)
deriving DecidableEq, Repr

/-! ### Type-switching muxers (builders.go 20-121, 341-350) -/

/-- The muxer of `GoInstaller` (builders.go 20-30): on a string payload run
`GoDeps` and reply the error or `true`; any other payload falls out of the
type switch and nothing happens.  `depsResult` is the outcome of the external
`GoDeps` call, a collaborator per the design document. -/
def goInstallerMux (depsResult : String → Option String) (data : Data) : List Emission :=
  match data with
  | .str path =>
    match depsResult path with
    | some e => [.error e]
    | none => [.reply (.bool true)]
  | _ => []

/-- The muxer of `GoRunner` (builders.go 44-50): on a string payload reply
the output of the external `GoRun` call; other payloads are ignored. -/
def goRunnerMux (runOutput : String → String) (data : Data) : List Emission :=
  match data with
  | .str cmd => [.reply (.str (runOutput cmd))]
  | _ => []

/-- The muxer of `GoBuilder` (builders.go 77-85): on a `BuildConfig` payload
run `Gobuild` and reply only the error, if any; other payloads are ignored.
`buildResult` is the outcome of the external `Gobuild` call. -/
def goBuilderMux (buildResult : BuildConfig → Option String) (data : Data) : List Emission :=
  match data with
  | .conf cmd =>
    match buildResult cmd with
    | some e => [.error e]
    | none => []
  | _ => []

/-- The muxer of `GoArgsBuilder` (builders.go 100-110): on a string-slice
payload run `GobuildArgs`, reply the error or `true`; others ignored. -/
def goArgsBuilderMux (argsResult : List String → Option String) (data : Data) : List Emission :=
  match data with
  | .args cmd =>
    match argsResult cmd with
    | some e => [.error e]
    | none => [.reply (.bool true)]
  | _ => []

/-- The muxer of `GoBuilderWith cmd` (builders.go 88-97): on every received
signal (payload unused) run `Gobuild cmd`; on error `ReplyError err` and
return, otherwise `Reply true`.  `result` is the `Gobuild` outcome for this
trigger. -/
def goBuilderWithMux (result : Option String) : List Emission :=
  match result with
  | some e => [.error e]
  | none => [.reply (.bool true)]

/-- A cell update in a pointer store. -/
def updateStore {α : Type} (s : Nat → α) (i : Nat) (v : α) : Nat → α :=
  fun j => if j = i then v else s j

/-- The muxer of `ByteRenderer fx` (builders.go 341-350): on a `*RenderFile`
payload, allocate a fresh `RenderFile` whose Path is copied and whose Data is
`fx` of the old Data, and reply the fresh pointer; other payloads are
ignored.  `next` is the next unallocated cell id; it is returned bumped. -/
def byteRendererStep (fx : String → String) (store : Nat → RenderFile) (next : Nat)
    (data : Data) : (Nat → RenderFile) × Nat × List Emission :=
  match data with
  | .render p =>
    let src := store p
    (updateStore store next { Path := src.Path, Data := fx src.Data },
      next + 1, [.reply (.render next)])
  | _ => (store, next, [])

/-! ### Configuration validation (builders.go 66-74, 183-196) -/

/-- The `validateBuildConfig` check (builders.go 66-74).  The Go code panics
on a missing field; the panic is modelled as `Except.error`, so a caller of
a validating constructor gets either the configuration error or the stage. -/
def validateBuildConfig (b : BuildConfig) : Except String Unit :=
  if b.Name = "" then .error "buildConfig.Name can not be empty,supply a name for the build"
  else if b.Path = "" then .error "buildConfig.Path can not be empty,supply a path to store the build"
  else .ok ()

/-- The `validateBinaryBuildConfig` check (builders.go 183-191), identical
shape to `validateBuildConfig`. -/
def validateBinaryBuildConfig (b : BinaryBuildConfig) : Except String Unit :=
  if b.Name = "" then .error "buildConfig.Name can not be empty,supply a name for the build"
  else if b.Path = "" then .error "buildConfig.Path can not be empty,supply a path to store the build"
  else .ok ()

/-! ### Supervisor stages: CommandLauncher / BinaryLauncher / GoFileLauncher
(builders.go 124-142, 145-173, 233-254) -/

/-- The closure state of a launcher muxer: the captured `var channel chan
bool` (none until the first trigger; a created mailbox is identified by the
id it was allocated), the allocator for mailbox identities, and whether the
stage has been closed. -/
structure LauncherState where
  channel : Option Nat
  nextMailbox : Nat
  closed : Bool
deriving DecidableEq, Repr

/-- The launcher state captured at construction time (builders.go 125, 146,
234): no mailbox exists yet. -/
def launcherInit : LauncherState :=
  { channel := none, nextMailbox := 0, closed := false }

/-- The observable actions of one launcher muxer invocation: starting the
run-loop (`RunCMD`/`RunBin`/`RunGo` returning a fresh mailbox), closing the
mailbox, or delivering a value into it. -/
inductive Effect where
  | createMailbox (id : Nat)
  | closeMailbox (id : Nat)
  | deliver (id : Nat) (v : Bool)
deriving DecidableEq, Repr

/-- The select block of `BinaryLauncher` (builders.go 157-170): if the close
notification has fired, close the mailbox and return; otherwise deliver the
payload into the mailbox when it is a bool, and do nothing at all when it is
not (the commented-out fallback at 168-169 never runs).  Returns whether the
stage ended closed, plus the effects. -/
def binaryHandoff (cancelled : Bool) (id : Nat) (data : Data) : Bool × List Effect :=
  if cancelled then (true, [.closeMailbox id])
  else
    match data with
    | .bool b => (false, [.deliver id b])
    | _ => (false, [])

/-- The select block of `CommandLauncher` (builders.go 133-139) and of
`GoFileLauncher` (builders.go 245-251): close on cancellation, otherwise
send `true` into the mailbox whatever the payload was. -/
def commandHandoff (cancelled : Bool) (id : Nat) : Bool × List Effect :=
  if cancelled then (true, [.closeMailbox id])
  else (false, [.deliver id true])

/-- One invocation of the `BinaryLauncher` muxer (builders.go 148-172): when
`channel` is nil, call `RunBin` first — this creates the mailbox and starts
the run-loop — then run the select block. -/
def binaryLauncherMux (st : LauncherState) (cancelled : Bool) (data : Data) :
    LauncherState × List Effect :=
  match st.channel with
  | none =>
    let id := st.nextMailbox
    let h := binaryHandoff cancelled id data
    ({ channel := some id, nextMailbox := id + 1, closed := st.closed || h.1 },
      Effect.createMailbox id :: h.2)
  | some id =>
    let h := binaryHandoff cancelled id data
    ({ st with closed := st.closed || h.1 }, h.2)

/-- One invocation of the `CommandLauncher` muxer (builders.go 126-141):
when `channel` is nil, call `RunCMD`, then run the select block. -/
def commandLauncherMux (st : LauncherState) (cancelled : Bool) (_data : Data) :
    LauncherState × List Effect :=
  match st.channel with
  | none =>
    let id := st.nextMailbox
    let h := commandHandoff cancelled id
    ({ channel := some id, nextMailbox := id + 1, closed := st.closed || h.1 },
      Effect.createMailbox id :: h.2)
  | some id =>
    let h := commandHandoff cancelled id
    ({ st with closed := st.closed || h.1 }, h.2)

/-- The completion callback handed to `RunCMD` (builders.go 128-130) and to
`RunBin` (builders.go 150-152): `root.Reply(true)`.  Reply delivers to every
bound downstream in binding order, per the design document, so the callback
yields one `true` delivery per downstream. -/
def completionReply (downstreams : List Nat) : List (Nat × Data) :=
  downstreams.map (fun d => (d, Data.bool true))

/-- A stage-teardown action scheduled by a callback. -/
inductive CloseAction where
  | scheduleStageClose
deriving DecidableEq, Repr

/-- The abnormal-termination callback handed to `RunBin` by `BinaryLauncher`
(builders.go 152-154): `go root.Close()` — schedule an asynchronous close of
the whole stage and emit no signal at all. -/
def runBinOnAbnormal : List CloseAction × List Emission :=
  ([.scheduleStageClose], [])

/-- The abnormal-termination callback handed to `RunGo` by `GoFileLauncher`
(builders.go 240-242), identical to the `BinaryLauncher` one. -/
def runGoOnAbnormal : List CloseAction × List Emission :=
  ([.scheduleStageClose], [])

/-- Acting on a scheduled stage close: the stage becomes closed. -/
def applyClose (st : LauncherState) : LauncherState :=
  { st with closed := true }

/-- Modelled from the spec: the behaviour of a stage around its muxer
(`flux.Reactive`/`flux.SimpleMuxer` are outside this repository).  Per §3
and §4.1 of the design document, a closed stage accepts no further input and
delivers no further output; an open stage hands the signal to its muxer, and
neither `Reply` nor `ReplyError` changes the closed flag (errors do not
implicitly close the stage). -/
def stageStep (mux : Data → List Emission) (closed : Bool) (d : Data) :
    Bool × List Emission :=
  if closed then (true, []) else (false, mux d)

/-! ### The supervisor run-loop behind `RunBin` -/

/-- A value the run-loop can take out of its mailbox: a trigger delivered by
the muxer (for `RunBin` the bool payload: `true` relaunches, `false`
terminates), or the spontaneous exit of the supervised process. -/
inductive MailMsg where
  | trigger (b : Bool)
  | procExit
deriving DecidableEq, Repr

/-- The observable events of the composite: the run-loop observing a
terminate request, killing the live child, starting a child, a child
exiting, and the builder starting and finishing a `Gobuild`. -/
inductive Event where
  | killObserved
  | procKilled
  | runStart
  | runExit
  | buildStart
  | buildOk
  | buildErr (e : String)
deriving DecidableEq, Repr

/-- Modelled from the spec: one mailbox value processed by the `RunBin`
run-loop, which is not under src.  Per §4.3 and §5 of the design document
the run-loop owns the single child-process slot and serialises every start
and kill through the mailbox: a `true` trigger relaunches the binary — any
live child is killed before the new start is honoured — a `false` trigger is
a terminate request that kills the live child and starts nothing, and a
spontaneous exit clears the slot.  Returns whether a child is alive after
the step and the events in the order they happen. -/
def supStep (alive : Bool) (m : MailMsg) : Bool × List Event :=
  match m with
  | .trigger true => (true, (if alive then [Event.procKilled] else []) ++ [Event.runStart])
  | .trigger false => (false, Event.killObserved :: (if alive then [Event.procKilled] else []))
  | .procExit => (false, if alive then [Event.runExit] else [])

/-- The run-loop processing a whole mailbox stream, in order. -/
def supTrace (alive : Bool) : List MailMsg → List Event
  | [] => []
  | m :: ms =>
    let s := supStep alive m
    s.2 ++ supTrace s.1 ms

/-- The number of live child processes after one event. -/
def stepLive (c : Nat) : Event → Nat
  | .runStart => c + 1
  | .procKilled => c - 1
  | .runExit => c - 1
  | _ => c

/-- The live-process count stays at most `c ≤ 1` at every instant of the
event list, scanning from an initial count. -/
def liveBoundedB : Nat → List Event → Bool
  | c, [] => decide (c ≤ 1)
  | c, e :: es => decide (c ≤ 1) && liveBoundedB (stepLive c e) es

/-! ### The Build-Run composite `BinaryBuildLauncher` (builders.go 195-230) -/

/-- The events of one `Gobuild` invocation by the builder stage: it starts,
then completes with success or with the given error. -/
def buildEvents (outcome : Option String) : List Event :=
  Event.buildStart :: (match outcome with
    | some e => [Event.buildErr e]
    | none => [Event.buildOk])

/-- What a builder emission becomes at the runner stage: the runner muxer
(builders.go 163-166) delivers only bool payloads into its mailbox, so a
`Reply true` becomes a `true` trigger and an error signal is dropped. -/
def runnerInput : Emission → Option MailMsg
  | .reply (.bool b) => some (.trigger b)
  | _ => none

/-- The run-loop processing a list of mailbox values, keeping state. -/
def processMsgs (alive : Bool) : List MailMsg → Bool × List Event
  | [] => (alive, [])
  | m :: ms =>
    let s := supStep alive m
    let r := processMsgs s.1 ms
    (r.1, s.2 ++ r.2)

/-- One external trigger traversing `BinaryBuildLauncher` (builders.go
195-230).  The coordinating muxer (217-223) first does `runner.Send(false)`
— the supervisor mailbox processes the terminate request — and only then
`root.Reply(data)` forwards the trigger into the chain; the stack binds the
builder before the runner (226-227) so the builder runs `Gobuild` next
(stack ordering per §4.2 of the design document), and the builder emissions
(`goBuilderWithMux`) are then delivered to the runner.  `alive` is whether a
child from an earlier trigger is still running; `outcome` is the `Gobuild`
result for this trigger. -/
def buildRunSegment (alive : Bool) (outcome : Option String) : Bool × List Event :=
  let kill := supStep alive (.trigger false)
  let run := processMsgs kill.1 ((goBuilderWithMux outcome).filterMap runnerInput)
  (run.1, kill.2 ++ buildEvents outcome ++ run.2)

/-- The per-trigger event segments of a whole trigger sequence processed by
`BinaryBuildLauncher`, threading the supervisor state. -/
def buildRunSegments (alive : Bool) : List (Option String) → List (List Event)
  | [] => []
  | o :: os =>
    let s := buildRunSegment alive o
    s.2 :: buildRunSegments s.1 os

/-- The ordering contract of one segment: the terminate request opens the
segment, every kill event precedes the build start, and a run start happens
only after the build completed successfully. -/
def SegOK (seg : List Event) : Prop :=
  seg.head? = some Event.killObserved ∧
  (∀ i j : Nat, seg.get? i = some Event.buildStart →
    (seg.get? j = some Event.killObserved ∨ seg.get? j = some Event.procKilled) → j < i) ∧
  (∀ i : Nat, seg.get? i = some Event.runStart →
    ∃ j : Nat, j < i ∧ seg.get? j = some Event.buildOk)

/-! ### Validating constructors (builders.go 88-89, 195-196) -/

/-- The constructor `GoBuilderWith` (builders.go 88-97): validate the config
first — the Go panic is modelled as the error branch, raised before any
stage exists and hence before any trigger can be sent — then return the
stage muxer, which captures the validated config. -/
def goBuilderWith (cmd : BuildConfig) : Except String (Option String → List Emission) :=
  match validateBuildConfig cmd with
  | .error e => .error e
  | .ok _ => .ok goBuilderWithMux

/-- The constructor `BinaryBuildLauncher` (builders.go 195-230): validate
the config first (196), then assemble the build stack whose per-trigger
behaviour is `buildRunSegment`. -/
def binaryBuildLauncher (cmd : BinaryBuildConfig) :
    Except String (Bool → Option String → Bool × List Event) :=
  match validateBinaryBuildConfig cmd with
  | .error e => .error e
  | .ok _ => .ok buildRunSegment

/-! ### FileWrite-transforming stages (builders.go 394-409, 538-555) -/

/-- Go `filepath.Base` restricted to slash-separated paths: empty gives a
dot, trailing slashes are dropped, and the last component remains. -/
def filepathBase (p : String) : String :=
  if p = "" then "."
  else
    let q := p.dropRightWhile (fun c => c = '/')
    if q = "" then "/"
    else
      match (q.splitOn "/").getLast? with
      | some b => b
      | none => q

/-- Go `filepath.Ext`: the suffix of the last component starting at its last
dot, or empty when the last component has no dot. -/
def filepathExt (p : String) : String :=
  let b :=
    match (p.splitOn "/").getLast? with
    | some x => x
    | none => p
  let parts := b.splitOn "."
  if parts.length ≤ 1 then ""
  else
    "." ++
      (match parts.getLast? with
      | some x => x
      | none => "")

/-- Go `strings.Replace(s, old, new, -1)`: every occurrence replaced; an
empty pattern with an empty replacement leaves the string unchanged. -/
def goReplaceAll (s old new : String) : String :=
  if old = "" then s else s.replace old new

/-- The default `FileWriteMutator` (builders.go 397): return the received
pointer itself, with no copy. -/
def defaultMutateFileWrite (store : Nat → FileWrite) (p : Nat) : (Nat → FileWrite) × Nat :=
  (store, p)

/-- The muxer of `MutateFileWrite fx` (builders.go 400-409): on a
`*FileWrite` payload reply whatever pointer `fx` returns (the stage itself
copies nothing); other payloads are ignored.  A `fx` acts on the store and
the received pointer and yields the possibly-updated store and the pointer
it returns. -/
def mutateFileWriteStep (fx : (Nat → FileWrite) → Nat → (Nat → FileWrite) × Nat)
    (store : Nat → FileWrite) (data : Data) : (Nat → FileWrite) × List Emission :=
  match data with
  | .fileWrite p =>
    let r := fx store p
    (r.1, [.reply (.fileWrite r.2)])
  | _ => (store, [])

/-- The `BeforeWrite` mutator installed by `GoFridayStream` (builders.go
543-553): take the base of the path, strip every occurrence of its
extension, wrap the byte data into a Go template define block — and write
the new bytes into the `Data` field of the received `*FileWrite` itself,
returning the same pointer. -/
def goFridayBeforeWrite (store : Nat → FileWrite) (p : Nat) : (Nat → FileWrite) × Nat :=
  let w := store p
  let base0 := filepathBase w.Path
  let ext := filepathExt base0
  let base := goReplaceAll base0 ext ""
  let mod := "\x7b\x7bdefine \"" ++ base ++ "\"\x7d\x7d\n\n" ++ w.Data ++ "\n\x7b\x7b end \x7d\x7d\n"
  (updateStore store p { Path := w.Path, Data := mod }, p)

/-- A concrete one-cell store used to exhibit the in-place mutation. -/
def c9Store : Nat → FileWrite :=
  fun _ => { Path := "docs/intro.md", Data := "hello" }

/-- A launcher state whose run-loop is already active: the mailbox (id 0)
exists and the stage is open. -/
def launcherRunning : LauncherState :=
  { channel := some 0, nextMailbox := 1, closed := false }

end Reactors

namespace Reactors

/-- C10: for every Vfile v the accessors are total functions of the stored
fields: Size is the length of Data as an int64, IsDir is false, Mode is 0,
Sys is nil, and Path is the path-join of the directory field with Name. -/
theorem vfile_accessors (v : Vfile) :
    v.Size = Int.ofNat v.Data.length ∧
    v.IsDir = false ∧
    v.Mode = 0 ∧
    v.Sys = none ∧
    v.Path = pathJoin [v.path, v.Name] :=
  ⟨rfl, rfl, rfl, rfl, rfl⟩

/-- Helper: the run-loop keeps the live-child count bounded by one at every
instant, starting from the count matching the current state. -/
theorem liveBounded_supTrace (msgs : List MailMsg) :
    ∀ alive : Bool, liveBoundedB (if alive then 1 else 0) (supTrace alive msgs) = true := by
  induction msgs with
  | nil => intro alive; cases alive <;> simp [supTrace, liveBoundedB]
  | cons m ms ih =>
    intro alive
    have h1 : liveBoundedB 1 (supTrace true ms) = true := by simpa using ih true
    have h0 : liveBoundedB 0 (supTrace false ms) = true := by simpa using ih false
    cases m with
    | trigger b =>
      cases b <;> cases alive <;>
        simp [supTrace, supStep, liveBoundedB, stepLive, h1, h0]
    | procExit =>
      cases alive <;>
        simp [supTrace, supStep, liveBoundedB, stepLive, h1, h0]

/-- C2: per supervisor handle, at most one OS-level child process is alive
at any instant of the run-loop trace, and a kill is observed and acted on
before the next start from the same handle is honoured — a relaunch trigger
kills the live child before starting the new one, and an explicit terminate
request kills and starts nothing. -/
theorem supervisor_at_most_one_process (msgs : List MailMsg) :
    liveBoundedB 0 (supTrace false msgs) = true ∧
    (supStep true (MailMsg.trigger true)).2 = [Event.procKilled, Event.runStart] ∧
    (supStep true (MailMsg.trigger false)).2 = [Event.killObserved, Event.procKilled] := by
  refine ⟨?_, by simp [supStep], by simp [supStep]⟩
  have h := liveBounded_supTrace msgs false
  simpa using h

/-- Helper: every per-trigger segment of the build-run composite satisfies
the ordering contract. -/
theorem segOK_buildRunSegment (alive : Bool) (o : Option String) :
    SegOK (buildRunSegment alive o).2 := by
  cases alive <;> rcases o with _ | e
  · show SegOK [Event.killObserved, Event.buildStart, Event.buildOk, Event.runStart]
    refine ⟨rfl, ?_, ?_⟩
    · intro i j hi hj
      rcases i with _ | _ | _ | _ | i <;> rcases j with _ | _ | _ | _ | j <;>
        simp_all [List.get?]
    · intro i hi
      rcases i with _ | _ | _ | _ | i <;> simp_all [List.get?]
      exact ⟨2, by omega, rfl⟩
  · show SegOK [Event.killObserved, Event.buildStart, Event.buildErr e]
    refine ⟨rfl, ?_, ?_⟩
    · intro i j hi hj
      rcases i with _ | _ | _ | i <;> rcases j with _ | _ | _ | j <;>
        simp_all [List.get?]
    · intro i hi
      rcases i with _ | _ | _ | i <;> simp_all [List.get?]
  · show SegOK [Event.killObserved, Event.procKilled, Event.buildStart,
      Event.buildOk, Event.runStart]
    refine ⟨rfl, ?_, ?_⟩
    · intro i j hi hj
      rcases i with _ | _ | _ | _ | _ | i <;> rcases j with _ | _ | _ | _ | _ | j <;>
        simp_all [List.get?]
    · intro i hi
      rcases i with _ | _ | _ | _ | _ | i <;> simp_all [List.get?]
      exact ⟨3, by omega, rfl⟩
  · show SegOK [Event.killObserved, Event.procKilled, Event.buildStart, Event.buildErr e]
    refine ⟨rfl, ?_, ?_⟩
    · intro i j hi hj
      rcases i with _ | _ | _ | _ | i <;> rcases j with _ | _ | _ | _ | j <;>
        simp_all [List.get?]
    · intro i hi
      rcases i with _ | _ | _ | _ | i <;> simp_all [List.get?]

/-- C1: for every external trigger processed by the composite built by
`BinaryBuildLauncher`, the terminate request is processed by the supervisor
before the trigger reaches the build stage (the segment opens with the
terminate observation and every kill precedes the build start), and the
build completes before the run starts (a run start is always preceded by a
successful build completion; a failed build has no run start).  Since the
per-trigger segments are concatenated in trigger order, the terminate
request that kills trigger T1's process is observed strictly before trigger
T2's build executes. -/
theorem binaryBuildLauncher_ordering (alive : Bool) (os : List (Option String)) :
    ∀ seg ∈ buildRunSegments alive os, SegOK seg := by
  induction os generalizing alive with
  | nil => intro seg h; simp [buildRunSegments] at h
  | cons o os ih =>
    intro seg h
    simp only [buildRunSegments, List.mem_cons] at h
    rcases h with h | h
    · rw [h]; exact segOK_buildRunSegment alive o
    · exact ih _ seg h

/-- C1 witness: the composite at one successful trigger, starting with no
live child, yields the segment kill-build-run in that order. -/
theorem binaryBuildLauncher_ordering_witness :
    SegOK [Event.killObserved, Event.buildStart, Event.buildOk, Event.runStart] :=
  binaryBuildLauncher_ordering false [none]
    [Event.killObserved, Event.buildStart, Event.buildOk, Event.runStart] (by decide)

/-- C3: when `Gobuild` fails for a trigger, the `GoBuilderWith` stage emits
that error exactly once and emits no success signal; the downstream runner
stage delivers nothing into its mailbox on an error signal, so the run stage
is never reached for that trigger; and the error leaves the builder stage
open, so the next trigger is processed normally. -/
theorem goBuilderWith_build_failure (e : String) (st : LauncherState) (cancelled : Bool)
    (r2 : Option String) (d d2 : Data) :
    goBuilderWithMux (some e) = [Emission.error e] ∧
    Emission.reply (Data.bool true) ∉ goBuilderWithMux (some e) ∧
    (∀ id v, Effect.deliver id v ∉ (binaryLauncherMux st cancelled (Data.err e)).2) ∧
    stageStep (fun _ => goBuilderWithMux (some e)) false d = (false, [Emission.error e]) ∧
    stageStep (fun _ => goBuilderWithMux r2) false d2 = (false, goBuilderWithMux r2) := by
  refine ⟨rfl, by simp [goBuilderWithMux], ?_, rfl, rfl⟩
  intro id v
  cases hch : st.channel <;> cases cancelled <;>
    simp [binaryLauncherMux, binaryHandoff, hch]

/-- C3 witness: the failing build at a concrete error, with the runner in
its initial state and a successful follow-up trigger. -/
theorem goBuilderWith_build_failure_witness :
    goBuilderWithMux (some "exit status 2") = [Emission.error "exit status 2"] ∧
    Emission.reply (Data.bool true) ∉ goBuilderWithMux (some "exit status 2") ∧
    Effect.deliver 0 true ∉ (binaryLauncherMux launcherInit false (Data.err "exit status 2")).2 ∧
    stageStep (fun _ => goBuilderWithMux (some "exit status 2")) false (Data.bool true) =
      (false, [Emission.error "exit status 2"]) ∧
    stageStep (fun _ => goBuilderWithMux none) false (Data.bool true) =
      (false, goBuilderWithMux none) :=
  have h := goBuilderWith_build_failure "exit status 2" launcherInit false none
    (Data.bool true) (Data.bool true)
  ⟨h.1, h.2.1, h.2.2.1 0 true, h.2.2.2.1, h.2.2.2.2⟩

/-- C4: a BuildConfig or BinaryBuildConfig whose Name or Path is empty makes
the constructor fail with a configuration error before any stage exists, so
before any trigger can be sent; with both fields non-empty, validation
passes and construction succeeds. -/
theorem config_validation_eager (b : BuildConfig) (c : BinaryBuildConfig) :
    (b.Name = "" ∨ b.Path = "" → ∃ e, goBuilderWith b = Except.error e) ∧
    (b.Name ≠ "" → b.Path ≠ "" → goBuilderWith b = Except.ok goBuilderWithMux) ∧
    (c.Name = "" ∨ c.Path = "" → ∃ e, binaryBuildLauncher c = Except.error e) ∧
    (c.Name ≠ "" → c.Path ≠ "" → binaryBuildLauncher c = Except.ok buildRunSegment) := by
  refine ⟨?_, ?_, ?_, ?_⟩
  · intro h
    simp only [goBuilderWith, validateBuildConfig]
    split_ifs with h1 h2
    · exact ⟨_, rfl⟩
    · exact ⟨_, rfl⟩
    · rcases h with h | h
      · exact absurd h h1
      · exact absurd h h2
  · intro h1 h2
    simp [goBuilderWith, validateBuildConfig, h1, h2]
  · intro h
    simp only [binaryBuildLauncher, validateBinaryBuildConfig]
    split_ifs with h1 h2
    · exact ⟨_, rfl⟩
    · exact ⟨_, rfl⟩
    · rcases h with h | h
      · exact absurd h h1
      · exact absurd h h2
  · intro h1 h2
    simp [binaryBuildLauncher, validateBinaryBuildConfig, h1, h2]

/-- C4 witness: an empty Name fails construction, the valid configuration
from the design document scenario passes, for both constructors. -/
theorem config_validation_eager_witness :
    (∃ e, goBuilderWith { Path := "/tmp/app", Name := "", Args := [] } = Except.error e) ∧
    goBuilderWith { Path := "/tmp/app", Name := "demo", Args := [] } =
      Except.ok goBuilderWithMux ∧
    (∃ e, binaryBuildLauncher { Path := "", Name := "demo", BuildArgs := [], RunArgs := ["--once"] } =
      Except.error e) ∧
    binaryBuildLauncher { Path := "/tmp/app", Name := "demo", BuildArgs := [], RunArgs := ["--once"] } =
      Except.ok buildRunSegment :=
  have hbad := config_validation_eager ⟨"/tmp/app", "", []⟩ ⟨"", "demo", [], ["--once"]⟩
  have hok := config_validation_eager ⟨"/tmp/app", "demo", []⟩ ⟨"/tmp/app", "demo", [], ["--once"]⟩
  ⟨hbad.1 (Or.inl rfl),
   hok.2.1 (by decide) (by decide),
   hbad.2.2.1 (Or.inr rfl),
   hok.2.2.2 (by decide) (by decide)⟩

/-- C5 counterexample: with the run-loop active (mailbox id 0 exists) and no
cancellation requested, a non-boolean trigger payload received by the
`BinaryLauncher` muxer produces no effect at all — in particular the
incoming value is never handed off into the trigger mailbox, refuting the
claim that every incoming value is handed off. -/
theorem binaryLauncher_drops_nonbool_cex :
    (binaryLauncherMux launcherRunning false (Data.str "src/app.go")).2 = [] ∧
    (binaryLauncherMux launcherRunning false (Data.str "src/app.go")).1 = launcherRunning := by
  exact ⟨rfl, rfl⟩

/-- C5 (amended): while the run-loop is active, `BinaryLauncher` hands off
only boolean payloads into the mailbox — non-boolean payloads are dropped
without delivery — while `CommandLauncher` hands off the fixed value `true`
whatever the payload is; in both, if cancellation has been requested before
the handoff, cancellation wins: the mailbox is closed, nothing is delivered,
and the stage ends closed, so no process is launched after shutdown was
requested. -/
theorem launcher_handoff_semantics (st : LauncherState) (d : Data) (b : Bool) :
    ((binaryLauncherMux st true d).1.closed = true ∧
      (∃ id, Effect.closeMailbox id ∈ (binaryLauncherMux st true d).2) ∧
      (∀ id v, Effect.deliver id v ∉ (binaryLauncherMux st true d).2)) ∧
    (∃ id, Effect.deliver id b ∈ (binaryLauncherMux st false (Data.bool b)).2) ∧
    ((∀ c : Bool, d ≠ Data.bool c) →
      ∀ id v, Effect.deliver id v ∉ (binaryLauncherMux st false d).2) ∧
    ((commandLauncherMux st true d).1.closed = true ∧
      (∀ id v, Effect.deliver id v ∉ (commandLauncherMux st true d).2)) ∧
    (∃ id, Effect.deliver id true ∈ (commandLauncherMux st false d).2) := by
  refine ⟨⟨?_, ?_, ?_⟩, ?_, ?_, ⟨?_, ?_⟩, ?_⟩
  · cases hch : st.channel <;> simp [binaryLauncherMux, binaryHandoff, hch]
  · cases hch : st.channel <;> simp [binaryLauncherMux, binaryHandoff, hch]
  · intro id v
    cases hch : st.channel <;> simp [binaryLauncherMux, binaryHandoff, hch]
  · cases hch : st.channel <;> simp [binaryLauncherMux, binaryHandoff, hch]
  · intro hd id v
    cases d <;>
      first
      | exact absurd rfl (hd _)
      | (cases hch : st.channel <;> simp [binaryLauncherMux, binaryHandoff, hch])
  · cases hch : st.channel <;> simp [commandLauncherMux, commandHandoff, hch]
  · intro id v
    cases hch : st.channel <;> simp [commandLauncherMux, commandHandoff, hch]
  · cases hch : st.channel <;> simp [commandLauncherMux, commandHandoff, hch]

/-- C5 witness: the amended semantics at the running launcher state, a
string payload and a `false` relaunch trigger. -/
theorem launcher_handoff_semantics_witness :
    ((binaryLauncherMux launcherRunning true (Data.str "x")).1.closed = true ∧
      (∃ id, Effect.closeMailbox id ∈ (binaryLauncherMux launcherRunning true (Data.str "x")).2)) ∧
    (∃ id, Effect.deliver id false ∈ (binaryLauncherMux launcherRunning false (Data.bool false)).2) ∧
    Effect.deliver 0 true ∉ (binaryLauncherMux launcherRunning false (Data.str "x")).2 ∧
    (∃ id, Effect.deliver id true ∈ (commandLauncherMux launcherRunning false (Data.str "x")).2) :=
  have h := launcher_handoff_semantics launcherRunning (Data.str "x") false
  ⟨⟨h.1.1, h.1.2.1⟩, h.2.1, h.2.2.1 (by intro c h2; cases h2) 0 true, h.2.2.2.2⟩

/-- C6: a supervisor stage has no mailbox at construction time; the first
trigger received with no mailbox creates it (starting the run-loop) and
records its identity; every later trigger reuses exactly the recorded
mailbox and never creates another; and the run-loop completion callback
replies `true` to every bound downstream. -/
theorem launcher_mailbox_once (st : LauncherState) (c : Bool) (d : Data) (id : Nat)
    (downs : List Nat) :
    launcherInit.channel = none ∧
    (st.channel = none →
      (binaryLauncherMux st c d).1.channel = some st.nextMailbox ∧
      Effect.createMailbox st.nextMailbox ∈ (binaryLauncherMux st c d).2 ∧
      (commandLauncherMux st c d).1.channel = some st.nextMailbox ∧
      Effect.createMailbox st.nextMailbox ∈ (commandLauncherMux st c d).2) ∧
    (st.channel = some id →
      (binaryLauncherMux st c d).1.channel = some id ∧
      (∀ j, Effect.createMailbox j ∉ (binaryLauncherMux st c d).2) ∧
      (commandLauncherMux st c d).1.channel = some id ∧
      (∀ j, Effect.createMailbox j ∉ (commandLauncherMux st c d).2)) ∧
    (∀ down ∈ downs, (down, Data.bool true) ∈ completionReply downs) := by
  refine ⟨rfl, ?_, ?_, ?_⟩
  · intro h
    cases c <;> cases d <;>
      simp [binaryLauncherMux, commandLauncherMux, binaryHandoff, commandHandoff, h]
  · intro h
    cases c <;> cases d <;>
      simp [binaryLauncherMux, commandLauncherMux, binaryHandoff, commandHandoff, h]
  · intro down hdown
    simp only [completionReply, List.mem_map]
    exact ⟨down, hdown, rfl⟩

/-- C6 witness: the first trigger on the initial state creates mailbox 0,
the running state reuses mailbox 0 and creates none, and the completion
callback replies `true` to downstream 3 of the bound list. -/
theorem launcher_mailbox_once_witness :
    launcherInit.channel = none ∧
    (binaryLauncherMux launcherInit false (Data.bool true)).1.channel = some 0 ∧
    Effect.createMailbox 0 ∈ (binaryLauncherMux launcherInit false (Data.bool true)).2 ∧
    (binaryLauncherMux launcherRunning false (Data.bool true)).1.channel = some 0 ∧
    Effect.createMailbox 5 ∉ (binaryLauncherMux launcherRunning false (Data.bool true)).2 ∧
    (3, Data.bool true) ∈ completionReply [3, 7] :=
  have h1 := launcher_mailbox_once launcherInit false (Data.bool true) 0 [3, 7]
  have h2 := launcher_mailbox_once launcherRunning false (Data.bool true) 0 [3, 7]
  ⟨h1.1, (h1.2.1 rfl).1, (h1.2.1 rfl).2.1, (h2.2.2.1 rfl).1, (h2.2.2.1 rfl).2.1 5,
    h1.2.2.2 3 (by decide)⟩

/-- C7: for the binary-launch supervisor variants, the abnormal-termination
callback schedules an asynchronous close of the whole stage and emits no
error signal, and the closed stage then accepts no further input; a boolean
`false` payload to `BinaryLauncher` is delivered into the mailbox, where the
run-loop treats it as a terminate request — it kills the live process and
starts no new run. -/
theorem abnormal_termination_teardown (st : LauncherState) (mux : Data → List Emission)
    (d : Data) :
    runBinOnAbnormal = ([CloseAction.scheduleStageClose], []) ∧
    runGoOnAbnormal = ([CloseAction.scheduleStageClose], []) ∧
    (applyClose st).closed = true ∧
    stageStep mux true d = (true, []) ∧
    (∃ id, Effect.deliver id false ∈ (binaryLauncherMux st false (Data.bool false)).2) ∧
    (supStep true (MailMsg.trigger false)).2 = [Event.killObserved, Event.procKilled] ∧
    Event.runStart ∉ (supStep true (MailMsg.trigger false)).2 ∧
    Event.runStart ∉ (supStep false (MailMsg.trigger false)).2 := by
  refine ⟨rfl, rfl, rfl, rfl, ?_, by simp [supStep], by decide, by decide⟩
  cases hch : st.channel <;> simp [binaryLauncherMux, binaryHandoff, hch]

/-- C7 witness: the teardown semantics at the running launcher state and an
arbitrary concrete muxer. -/
theorem abnormal_termination_teardown_witness :
    runBinOnAbnormal = ([CloseAction.scheduleStageClose], []) ∧
    runGoOnAbnormal = ([CloseAction.scheduleStageClose], []) ∧
    (applyClose launcherRunning).closed = true ∧
    stageStep (fun _ => []) true (Data.bool true) = (true, []) ∧
    (∃ id, Effect.deliver id false ∈ (binaryLauncherMux launcherRunning false (Data.bool false)).2) ∧
    Event.runStart ∉ (supStep true (MailMsg.trigger false)).2 :=
  have h := abnormal_termination_teardown launcherRunning (fun _ => []) (Data.bool true)
  ⟨h.1, h.2.1, h.2.2.1, h.2.2.2.1, h.2.2.2.2.1, h.2.2.2.2.2.2.1⟩

/-- C8: every muxer that matches on a specific payload type ignores any
signal of a different type, error signals included: it emits nothing and
leaves all state unchanged. -/
theorem muxers_ignore_unexpected (depsResult : String → Option String)
    (runOutput : String → String) (buildResult : BuildConfig → Option String)
    (argsResult : List String → Option String) (fx : String → String)
    (store : Nat → RenderFile) (next : Nat) (d : Data) :
    ((∀ s, d ≠ Data.str s) → goInstallerMux depsResult d = [] ∧ goRunnerMux runOutput d = []) ∧
    ((∀ c, d ≠ Data.conf c) → goBuilderMux buildResult d = []) ∧
    ((∀ l, d ≠ Data.args l) → goArgsBuilderMux argsResult d = []) ∧
    ((∀ p, d ≠ Data.render p) → byteRendererStep fx store next d = (store, next, [])) := by
  refine ⟨?_, ?_, ?_, ?_⟩ <;> intro h <;> cases d <;>
    first
    | exact absurd rfl (h _)
    | simp [goInstallerMux, goRunnerMux, goBuilderMux, goArgsBuilderMux, byteRendererStep]

/-- C8 witness: an error signal received by each of the five muxers is
silently ignored. -/
theorem muxers_ignore_unexpected_witness :
    (goInstallerMux (fun _ => none) (Data.err "boom") = [] ∧
      goRunnerMux (fun s => s) (Data.err "boom") = []) ∧
    goBuilderMux (fun _ => none) (Data.err "boom") = [] ∧
    goArgsBuilderMux (fun _ => none) (Data.err "boom") = [] ∧
    byteRendererStep (fun s => s) (fun _ => RenderFile.mk "" "") 0 (Data.err "boom") =
      ((fun _ => RenderFile.mk "" ""), 0, []) :=
  have h := muxers_ignore_unexpected (fun _ => none) (fun s => s) (fun _ => none)
    (fun _ => none) (fun s => s) (fun _ => RenderFile.mk "" "") 0 (Data.err "boom")
  ⟨h.1 (fun _ h2 => Data.noConfusion h2),
   h.2.1 (fun _ h2 => Data.noConfusion h2),
   h.2.2.1 (fun _ h2 => Data.noConfusion h2),
   h.2.2.2 (fun _ h2 => Data.noConfusion h2)⟩

/-- C9 counterexample: the `BeforeWrite` mutator installed by
`GoFridayStream`, applied to a concrete store holding the received
`*FileWrite` at pointer 0, returns pointer 0 itself and the cell now differs
from what was received — the received signal value has been mutated in
place, refuting the claim that the FileWrite-transforming stages construct a
new value and leave the received one unchanged. -/
theorem goFriday_beforeWrite_mutates_cex :
    (goFridayBeforeWrite c9Store 0).2 = 0 ∧
    ((goFridayBeforeWrite c9Store 0).1 0).Data ≠ (c9Store 0).Data ∧
    (goFridayBeforeWrite c9Store 0).1 0 ≠ c9Store 0 := by
  refine ⟨rfl, ?_, ?_⟩ <;> decide

/-- C9 (amended): `ByteRenderer` does construct a fresh `*RenderFile` with
the same Path and the transformed Data, leaving the received cell and every
other cell unchanged; but the FileWrite-transforming stages do not copy:
`MutateFileWrite` forwards exactly the pointer its mutator returns, the
default mutator returns the received pointer itself, and `GoFridayStream`
BeforeWrite reassigns the Data field of the received `*FileWrite` in place
and returns that same pointer. -/
theorem byteRenderer_fresh_fileWrite_inplace (fx : String → String)
    (store : Nat → RenderFile) (next p : Nat) (hp : p < next) (ws : Nat → FileWrite)
    (q : Nat) :
    (byteRendererStep fx store next (Data.render p)).2.2 = [Emission.reply (Data.render next)] ∧
    next ≠ p ∧
    (byteRendererStep fx store next (Data.render p)).1 p = store p ∧
    (∀ j, j ≠ next → (byteRendererStep fx store next (Data.render p)).1 j = store j) ∧
    (byteRendererStep fx store next (Data.render p)).1 next =
      { Path := (store p).Path, Data := fx (store p).Data } ∧
    (goFridayBeforeWrite ws q).2 = q ∧
    (∀ j, j ≠ q → (goFridayBeforeWrite ws q).1 j = ws j) ∧
    ((goFridayBeforeWrite ws q).1 q).Path = (ws q).Path ∧
    defaultMutateFileWrite ws q = (ws, q) ∧
    mutateFileWriteStep goFridayBeforeWrite ws (Data.fileWrite q) =
      ((goFridayBeforeWrite ws q).1, [Emission.reply (Data.fileWrite q)]) := by
  refine ⟨rfl, (Nat.ne_of_lt hp).symm, ?_, ?_, ?_, rfl, ?_, ?_, rfl, rfl⟩
  · simp [byteRendererStep, updateStore, Nat.ne_of_lt hp]
  · intro j hj
    simp [byteRendererStep, updateStore, hj]
  · simp [byteRendererStep, updateStore]
  · intro j hj
    simp [goFridayBeforeWrite, updateStore, hj]
  · simp [goFridayBeforeWrite, updateStore]

/-- C9 witness: the amended properties at the concrete one-cell stores. -/
theorem byteRenderer_fresh_fileWrite_inplace_witness :
    (byteRendererStep (fun s => s) (fun _ => RenderFile.mk "a.md" "hi") 1 (Data.render 0)).2.2 =
      [Emission.reply (Data.render 1)] ∧
    (byteRendererStep (fun s => s) (fun _ => RenderFile.mk "a.md" "hi") 1 (Data.render 0)).1 0 =
      RenderFile.mk "a.md" "hi" ∧
    (goFridayBeforeWrite c9Store 0).2 = 0 ∧
    (goFridayBeforeWrite c9Store 0).1 5 = c9Store 5 ∧
    defaultMutateFileWrite c9Store 0 = (c9Store, 0) :=
  have h := byteRenderer_fresh_fileWrite_inplace (fun s => s)
    (fun _ => RenderFile.mk "a.md" "hi") 1 0 (by decide) c9Store 0
  ⟨h.1, h.2.2.1, h.2.2.2.2.2.1, h.2.2.2.2.2.2.1 5 (by decide), h.2.2.2.2.2.2.2.2.1⟩

end Reactors
